import Mathlib

set_option maxRecDepth 8192

/-!
# A verification model of `mcp_client.py`

This file is a shallow embedding of the MCP session client
(`src/mcp_client.py`): an SSE listener that bootstraps a session id,
a JSON-RPC command sender, and an intent-based router for inbound
`tools/list`-shaped responses.

Modelling conventions:

* The module-level mutable globals (`SESSION_ID`, `STOP_EVENT`,
  `REQUEST_ID`, `EXPECTING_TOOL_NAMES`, `EXPECTING_TOOL_INFO`,
  `REQUESTED_TOOL_NAME`) become the record `ClientState`; every
  function takes and returns the state explicitly.
* `print` calls become values of the inductive type `Output`, one
  constructor per distinct print site, carrying the interpolated data.
* JSON values parsed by `json.loads` become the inductive type `Json`.
  An inbound SSE event is its raw `data` string together with the
  (external) result of `json.loads` on it: `none` models a
  `json.JSONDecodeError`.
* Python dictionary membership (`'result' in data`) and subscripting
  (`data['result']`) are modelled for object payloads; a `KeyError` or
  `TypeError` raised by subscripting or iterating a non-object /
  non-iterable value is modelled by the `Except String` error channel
  (such an exception is not caught by the `except json.JSONDecodeError`
  handler in the source, so it aborts event processing).
* The outcome of the HTTP POST in `send_command` is external
  nondeterminism and is passed in as a boolean `netOk`
  (`true` = the POST and `raise_for_status` succeed, `false` = a
  `requests.exceptions.RequestException` is raised and caught).
* Python string operations used by the source are modelled on
  `String.data`: `str.startswith` is `List.isPrefixOf`, and
  `str.split "="` is `splitEq` below.
-/

/-- JSON values as produced by `json.loads`. Object keys are unique
(`json.loads` collapses duplicates), so first-match lookup is faithful.
Numeric payload values never matter to any routed branch, so an `Int`
field suffices for them. -/
inductive Json where
  | null : Json
  | bool : Bool → Json
  | num : Int → Json
  | str : String → Json
  | arr : List Json → Json
  | obj : List (String × Json) → Json

/-- Dictionary lookup `j[k]` for object values; `none` for a missing key
or a non-object. -/
def Json.lookup : Json → String → Option Json
  | .obj fields, k => fields.lookup k
  | _, _ => none

/-- The router's shape test `'result' in data and 'tools' in
data['result']` followed by the subscript chain
`data['result']['tools']` (lines 45 and 52 of the source). -/
def resultTools? (j : Json) : Option Json :=
  match j.lookup "result" with
  | some r => r.lookup "tools"
  | none => none

/-- Python iteration `for tool in tools:` over a JSON value: a list
yields its elements, a dict its keys, a string its characters; anything
else raises `TypeError`. -/
def iterJson : Json → Except String (List Json)
  | .arr xs => .ok xs
  | .obj fields => .ok (fields.map (fun f => Json.str f.1))
  | .str s => .ok (s.data.map (fun c => Json.str (String.singleton c)))
  | _ => .error "TypeError: not iterable"

/-- Python subscript `tool['name']`: `KeyError` when the key is absent,
`TypeError` on a non-dict. -/
def getField (j : Json) (k : String) : Except String Json :=
  match j with
  | .obj fields =>
    match fields.lookup k with
    | some v => .ok v
    | none => .error "KeyError"
  | _ => .error "TypeError: not subscriptable"

/-- Python equality `v == s` where `s` is a string: true exactly when
`v` is that same string (comparison with a non-string is `False`, never
an error). -/
def jsonEqStr : Json → String → Bool
  | .str a, s => a == s
  | _, _ => false

/-- `tool['name'] == REQUESTED_TOOL_NAME` where the right-hand side may
be Python `None` (comparison with `None` is `False`). -/
def matchesRequested (v : Json) : Option String → Bool
  | some s => jsonEqStr v s
  | none => false

/-- The global state of `mcp_client.py` (lines 11-16). `REQUEST_ID` is a
Python `int` that is only ever incremented, hence a `Nat`. -/
structure ClientState where
  sessionId : Option String
  stopEvent : Bool
  requestId : Nat
  expectingToolNames : Bool
  expectingToolInfo : Bool
  requestedToolName : Option String

/-- The initial global state (lines 11-16 of the source). -/
def initialState : ClientState :=
  { sessionId := none
    stopEvent := false
    requestId := 1
    expectingToolNames := false
    expectingToolInfo := false
    requestedToolName := none }

/-- Python truthiness test `if not SESSION_ID:`: `None` and the empty
string are falsy. -/
def falsyStr : Option String → Bool
  | none => true
  | some s => s == ""

/-- One print site of the source, with the data it interpolates. -/
inductive Output where
  | sessionEstablished : String → Output
  | canSendNow : Output
  | namesHeader : Output
  | toolNameLine : Json → Output
  | toolTotal : Nat → Output
  | toolInfoHeader : Option String → Output
  | toolInfoBody : Json → Output
  | toolNotFound : Option String → Output
  | eventReceived : Json → Output
  | rawEvent : String → Output
  | errorConnecting : Output
  | errorNoSession : Output
  | commandSent : String → Output
  | errorSending : Output
  | requestingToolNames : Output
  | requestingToolInfo : String → Output

/-- An inbound SSE event: the raw `data` string plus the result of
`json.loads` on it (`none` models `json.JSONDecodeError`). -/
structure Event where
  data : String
  parsed : Option Json

/-- Python `str.startswith`, modelled on the character list. -/
def startsWithB (data pre : String) : Bool :=
  pre.data.isPrefixOf data.data

/-- Python `str.split "="` on the character list: split at every `'='`,
keeping empty pieces, exactly as `split` with a non-empty separator. -/
def splitEq : List Char → List (List Char)
  | [] => [[]]
  | c :: rest =>
    let ss := splitEq rest
    if c = '=' then [] :: ss
    else (c :: ss.headD []) :: ss.tail

/-- Embeds `event_data.split("=")[1]` (line 36 of the source). The
source only evaluates this under the `startswith` guard, which
guarantees the index exists; the default is therefore never taken
there. -/
def sessionIdOf (data : String) : String :=
  String.mk ((splitEq data.data).getD 1 [])

/-- Reads `tool['name']` for every tool in order, stopping at the first
`KeyError`/`TypeError`, as the printing loop of lines 47-48 does. -/
def mapNames : List Json → Except String (List Json)
  | [] => .ok []
  | t :: rest =>
    match getField t "name" with
    | .error e => .error e
    | .ok v =>
      match mapNames rest with
      | .error e => .error e
      | .ok vs => .ok (v :: vs)

/-- The scan of lines 53-59: walk the tools in order and return the
first one whose `name` equals the requested name (`break`), `none` when
the loop finishes with `tool_found` still false. -/
def scanTools (req : Option String) : List Json → Except String (Option Json)
  | [] => .ok none
  | t :: rest =>
    match getField t "name" with
    | .error e => .error e
    | .ok v =>
      if matchesRequested v req then .ok (some t)
      else scanTools req rest

/-- The two prints of the tool-names branch's header/footer around the
per-tool bullets (lines 46-49). -/
def namesOut (names : List Json) (total : Nat) : List Output :=
  Output.namesHeader :: names.map Output.toolNameLine ++ [Output.toolTotal total]

/-- The prints of the tool-info branch after the scan (lines 56-62). -/
def infoOut (req : Option String) : Option Json → List Output
  | some t => [Output.toolInfoHeader req, Output.toolInfoBody t]
  | none => [Output.toolNotFound req]

/-- The body of the SSE listener loop for a single event (lines 30-70
of the source): skip empty data, bootstrap the session on a
`/messages?sessionId=` event, otherwise parse JSON and route by the
intent flags; a raised `KeyError`/`TypeError` is the `.error` channel. -/
def handleEvent (st : ClientState) (ev : Event) :
    Except String (List Output × ClientState) :=
  if ev.data = "" then .ok ([], st)
  else if startsWithB ev.data "/messages?sessionId=" then
    let sid := sessionIdOf ev.data
    .ok ([Output.sessionEstablished sid, Output.canSendNow],
         { st with sessionId := some sid })
  else
    match ev.parsed with
    | none => .ok ([Output.rawEvent ev.data], st)
    | some data =>
      match resultTools? data with
      | some tools =>
        if st.expectingToolNames then
          match iterJson tools with
          | .error e => .error e
          | .ok items =>
            match mapNames items with
            | .error e => .error e
            | .ok names =>
              .ok (namesOut names items.length,
                   { st with expectingToolNames := false })
        else if st.expectingToolInfo then
          match iterJson tools with
          | .error e => .error e
          | .ok items =>
            match scanTools st.requestedToolName items with
            | .error e => .error e
            | .ok found =>
              .ok (infoOut st.requestedToolName found,
                   { st with expectingToolInfo := false,
                             requestedToolName := none })
        else .ok ([Output.eventReceived data], st)
      | none => .ok ([Output.eventReceived data], st)

/-- The listener loop over a list of inbound events, with the
`STOP_EVENT` check between events (line 27). -/
def processEvents (st : ClientState) :
    List Event → Except String (List Output × ClientState)
  | [] => .ok ([], st)
  | ev :: rest =>
    if st.stopEvent then .ok ([], st)
    else
      match handleEvent st ev with
      | .error e => .error e
      | .ok (out, st') =>
        match processEvents st' rest with
        | .error e => .error e
        | .ok (outs, st'') => .ok (out ++ outs, st'')

/-- The `except requests.exceptions.RequestException` handler of the
listener (lines 71-73): log and set the process-wide stop flag. -/
def onConnectionError (st : ClientState) : List Output × ClientState :=
  ([Output.errorConnecting], { st with stopEvent := true })

/-- The guard of the Shell command loop, `while not
STOP_EVENT.is_set():` (line 136). -/
def shellLoopRuns (st : ClientState) : Bool :=
  !st.stopEvent

/-- The JSON-RPC request body built by `send_command` (lines 85-90). -/
structure RpcPayload where
  jsonrpc : String
  id : Nat
  method : String
  params : Json

/-- One HTTP POST to `{MESSAGES_URL}?sessionId={SESSION_ID}`
(lines 93-97). -/
structure Post where
  sessionId : String
  payload : RpcPayload

/-- What one call of a sender function produced: prints, HTTP POSTs,
the new global state, and the Python return value. -/
structure CallResult where
  output : List Output
  posts : List Post
  state : ClientState
  ret : Option Nat

/-- Embeds `send_command` (lines 78-105): reject locally when `SESSION_ID` is
falsy; otherwise POST the JSON-RPC body with the current `REQUEST_ID`,
log success or the caught network error, then increment the counter and
return the id that was used. -/
def send_command (st : ClientState) (method : String) (params : Json)
    (netOk : Bool) : CallResult :=
  if falsyStr st.sessionId then
    { output := [Output.errorNoSession], posts := [], state := st, ret := none }
  else
    let payload : RpcPayload :=
      { jsonrpc := "2.0", id := st.requestId, method := method, params := params }
    let post : Post := { sessionId := st.sessionId.getD "", payload := payload }
    { output := [if netOk then Output.commandSent method else Output.errorSending]
      posts := [post]
      state := { st with requestId := st.requestId + 1 }
      ret := some st.requestId }

/-- Embeds `list_tool_names` (lines 108-113): set `EXPECTING_TOOL_NAMES`, then
send `tools/list` with empty params; the Python function returns
`None`. -/
def list_tool_names (st : ClientState) (netOk : Bool) : CallResult :=
  let st1 := { st with expectingToolNames := true }
  let r := send_command st1 "tools/list" (Json.obj []) netOk
  { r with output := Output.requestingToolNames :: r.output, ret := none }

/-- Embeds `show_tool_info` (lines 115-121): set `EXPECTING_TOOL_INFO` and
`REQUESTED_TOOL_NAME`, then send `tools/list` with empty params; the
Python function returns `None`. -/
def show_tool_info (st : ClientState) (toolName : String) (netOk : Bool) :
    CallResult :=
  let st1 := { st with expectingToolInfo := true,
                       requestedToolName := some toolName }
  let r := send_command st1 "tools/list" (Json.obj []) netOk
  { r with output := Output.requestingToolInfo toolName :: r.output, ret := none }

/-- Accumulated effect of a sequence of `send_command` calls: the list
of Python return values, all HTTP POSTs in order, and the final state. -/
structure SendsResult where
  rets : List (Option Nat)
  posts : List Post
  state : ClientState

/-- Runs a sequence of `send_command` calls, each given as
`(method, params, netOk)`, threading the global state. -/
def runSends (st : ClientState) :
    List (String × Json × Bool) → SendsResult
  | [] => { rets := [], posts := [], state := st }
  | (m, p, netOk) :: rest =>
    let r := send_command st m p netOk
    let rr := runSends r.state rest
    { rets := r.ret :: rr.rets, posts := r.posts ++ rr.posts, state := rr.state }

/-- One listing-shaped request issued from the Shell: either
`list_tool_names` or `show_tool_info name`, with its network outcome. -/
inductive IntentCall where
  | listNames : Bool → IntentCall
  | showInfo : String → Bool → IntentCall

/-- Tests whether a call is a `list_tool_names` call. -/
def IntentCall.isListNames : IntentCall → Bool
  | .listNames _ => true
  | .showInfo _ _ => false

/-- Tests whether a call is a `show_tool_info` call. -/
def IntentCall.isShowInfo : IntentCall → Bool
  | .listNames _ => false
  | .showInfo _ _ => true

/-- State effect of one listing-shaped call. -/
def applyCall (st : ClientState) : IntentCall → ClientState
  | .listNames netOk => (list_tool_names st netOk).state
  | .showInfo n netOk => (show_tool_info st n netOk).state

/-- State effect of a sequence of listing-shaped calls. -/
def applyCalls (st : ClientState) (cs : List IntentCall) : ClientState :=
  cs.foldl applyCall st

/-- The value of `REQUESTED_TOOL_NAME` after a sequence of
listing-shaped calls, starting from `r`: the name of the last
`show_tool_info` call, if any. -/
def lastRequested (r : Option String) : List IntentCall → Option String
  | [] => r
  | .listNames _ :: cs => lastRequested r cs
  | .showInfo n _ :: cs => lastRequested (some n) cs

/-- Predicate used to characterise the info-branch scan: the tool is a
dict whose `name` entry is exactly the string `x`. -/
def toolNamed (x : String) (t : Json) : Bool :=
  match getField t "name" with
  | .ok v => jsonEqStr v x
  | .error _ => false

/-- Example state with an established session, as after the bootstrap
event `data: "/messages?sessionId=abc123"`. -/
def estState : ClientState :=
  { initialState with sessionId := some "abc123" }

/-- Example tools array `[{"name":"a"},{"name":"b"}]`. -/
def toolsAB : List Json :=
  [Json.obj [("name", Json.str "a")], Json.obj [("name", Json.str "b")]]

/-- Example `tools/list` response payload
`{"result":{"tools":[{"name":"a"},{"name":"b"}]}}`. -/
def payloadAB : Json :=
  Json.obj [("result", Json.obj [("tools", Json.arr toolsAB)])]

/-- Example inbound event carrying `payloadAB`. -/
def evAB : Event :=
  { data := "response", parsed := some payloadAB }

/-- Example inbound event whose data is not valid JSON. -/
def evRaw : Event :=
  { data := "not json", parsed := none }

/-- Example established-session state with the names intent pending. -/
def namesOnState : ClientState :=
  { estState with expectingToolNames := true }

/-- Example established-session state with the info intent pending for
the (absent) tool name `"x"`. -/
def infoXState : ClientState :=
  { estState with expectingToolInfo := true, requestedToolName := some "x" }

/-- Example state with both intent flags set at once (names intent and
info intent for tool `"b"`), as produced by overlapping listing
requests. -/
def bothState : ClientState :=
  { estState with expectingToolNames := true, expectingToolInfo := true,
                  requestedToolName := some "b" }

/-- Example tool descriptor `{"name":"b"}`. -/
def toolB : Json :=
  Json.obj [("name", Json.str "b")]

/-- Example sequence of `send_command` calls with mixed network
outcomes. -/
def exampleCalls : List (String × Json × Bool) :=
  [("tools/list", Json.obj [], true),
   ("tools/call", Json.obj [("name", Json.str "pods_list")], false),
   ("tools/list", Json.obj [], true)]

/-! ## Helper lemmas -/

theorem splitEq_ne_nil : ∀ l : List Char, splitEq l ≠ []
  | [] => by simp [splitEq]
  | c :: rest => by simp only [splitEq]; split <;> simp

theorem splitEq_cons_eq (rest : List Char) :
    splitEq ('=' :: rest) = [] :: splitEq rest := by
  simp [splitEq]

theorem splitEq_cons_ne (c : Char) (rest : List Char) (h : c ≠ '=') :
    splitEq (c :: rest)
      = (c :: (splitEq rest).headD []) :: (splitEq rest).tail := by
  simp [splitEq, h]

theorem splitEq_append (xs ys : List Char) (h : '=' ∉ xs) :
    splitEq (xs ++ ys)
      = (xs ++ (splitEq ys).headD []) :: (splitEq ys).tail := by
  induction xs with
  | nil =>
    simp only [List.nil_append]
    match hs : splitEq ys with
    | [] => exact absurd hs (splitEq_ne_nil ys)
    | s :: t => simp
  | cons c xs ih =>
    simp only [List.mem_cons, not_or] at h
    rw [List.cons_append, splitEq_cons_ne c _ (fun hc => h.1 hc.symm),
        ih h.2]
    simp

theorem splitEq_no_eq (l : List Char) (h : '=' ∉ l) : splitEq l = [l] := by
  induction l with
  | nil => rfl
  | cons c rest ih =>
    simp only [List.mem_cons, not_or] at h
    rw [splitEq_cons_ne c rest (fun hc => h.1 hc.symm), ih h.2]
    simp

theorem sessionIdOf_boot (v : String) :
    sessionIdOf ("/messages?sessionId=" ++ v)
      = String.mk ((splitEq v.data).headD []) := by
  unfold sessionIdOf
  rw [String.data_append]
  have h1 : ("/messages?sessionId=" : String).data
      = "/messages?sessionId".data ++ ['='] := by decide
  rw [h1, List.append_assoc]
  have h2 : ['='] ++ v.data = '=' :: v.data := rfl
  rw [h2, splitEq_append _ _ (by decide), splitEq_cons_eq]
  cases splitEq v.data <;> simp

theorem startsWithB_boot (v : String) :
    startsWithB ("/messages?sessionId=" ++ v) "/messages?sessionId=" = true := by
  unfold startsWithB
  rw [String.data_append]
  exact List.isPrefixOf_iff_prefix.mpr (List.prefix_append _ _)

theorem bootstrap_step (st : ClientState) (ev : Event)
    (h : startsWithB ev.data "/messages?sessionId=" = true) :
    handleEvent st ev
      = .ok ([Output.sessionEstablished (sessionIdOf ev.data), Output.canSendNow],
             { st with sessionId := some (sessionIdOf ev.data) }) := by
  have hne : ev.data ≠ "" := by
    intro he
    rw [he] at h
    exact absurd h (by decide)
  unfold handleEvent
  rw [if_neg hne, if_pos h]

/-! ## C10: session-id extraction from the bootstrap event -/

/-- C10: for a bootstrap event whose data is `"/messages?sessionId=" ++ v`,
the stored session id is the substring strictly between the first and
second `=` of the data: all of `v` when `v` contains no `=`, and the
prefix of `v` before its first `=` otherwise. -/
theorem c10_session_id_extraction (st : ClientState) (p : Option Json) (v : String) :
    ('=' ∉ v.data →
      handleEvent st { data := "/messages?sessionId=" ++ v, parsed := p }
        = .ok ([Output.sessionEstablished v, Output.canSendNow],
               { st with sessionId := some v }))
    ∧ (∀ a b : String, '=' ∉ a.data → v = a ++ "=" ++ b →
      handleEvent st { data := "/messages?sessionId=" ++ v, parsed := p }
        = .ok ([Output.sessionEstablished a, Output.canSendNow],
               { st with sessionId := some a })) := by
  constructor
  · intro hv
    rw [bootstrap_step st _ (startsWithB_boot v)]
    rw [show ({ data := "/messages?sessionId=" ++ v, parsed := p } : Event).data
          = "/messages?sessionId=" ++ v from rfl,
        sessionIdOf_boot, splitEq_no_eq v.data hv]
    rfl
  · intro a b ha hv
    subst hv
    rw [bootstrap_step st _ (startsWithB_boot (a ++ "=" ++ b))]
    rw [show ({ data := "/messages?sessionId=" ++ (a ++ "=" ++ b), parsed := p } : Event).data
          = "/messages?sessionId=" ++ (a ++ "=" ++ b) from rfl,
        sessionIdOf_boot]
    have hd : (a ++ "=" ++ b).data = a.data ++ ('=' :: b.data) := by
      rw [String.data_append, String.data_append, List.append_assoc]
      rfl
    rw [hd, splitEq_append _ _ ha, splitEq_cons_eq]
    simp

/-- C10 witness: the general theorem applied at `v = "abc123"` (no `=`
inside) and at `v = "pad=tail"` (an `=` inside, so the stored id is the
truncated `"pad"`). -/
theorem c10_witness :
    ('=' ∉ "abc123".data
      ∧ handleEvent initialState { data := "/messages?sessionId=" ++ "abc123", parsed := none }
          = .ok ([Output.sessionEstablished "abc123", Output.canSendNow],
                 { initialState with sessionId := some "abc123" }))
    ∧ ('=' ∉ "pad".data
      ∧ handleEvent initialState { data := "/messages?sessionId=" ++ "pad=tail", parsed := none }
          = .ok ([Output.sessionEstablished "pad", Output.canSendNow],
                 { initialState with sessionId := some "pad" })) :=
  ⟨⟨by decide, (c10_session_id_extraction initialState none "abc123").1 (by decide)⟩,
   ⟨by decide, (c10_session_id_extraction initialState none "pad=tail").2 "pad" "tail"
      (by decide) rfl⟩⟩

/-! ## C6: the session id is overwritten by later bootstrap events -/

/-- C6 counterexample: after the session is established as `"abc123"`, a
second bootstrap-shaped event carrying `"def456"` does change the
session id, and a command sent afterwards posts to the new session, so
the session id is not published exactly once. -/
theorem c6_counterexample :
    handleEvent estState { data := "/messages?sessionId=def456", parsed := none }
      = .ok ([Output.sessionEstablished "def456", Output.canSendNow],
             { initialState with sessionId := some "def456" })
    ∧ (some "def456" : Option String) ≠ estState.sessionId
    ∧ (send_command { initialState with sessionId := some "def456" }
         "tools/list" (Json.obj []) true).posts.map (fun q => q.sessionId)
        = ["def456"] :=
  ⟨rfl, by decide, rfl⟩

/-- C6 amended: every inbound event whose data starts with
`"/messages?sessionId="` sets the session id to the value extracted from
that event — the first such event establishes the session and any
subsequent one overwrites it (last writer wins), with commands issued
afterwards using the new value. -/
theorem c6_bootstrap_overwrites (st : ClientState) (ev : Event)
    (h : startsWithB ev.data "/messages?sessionId=" = true) :
    handleEvent st ev
      = .ok ([Output.sessionEstablished (sessionIdOf ev.data), Output.canSendNow],
             { st with sessionId := some (sessionIdOf ev.data) }) :=
  bootstrap_step st ev h

/-- C6 witness: the amended theorem applied to a second bootstrap event
arriving in a state whose session is already established. -/
theorem c6_witness :
    startsWithB "/messages?sessionId=def456" "/messages?sessionId=" = true
    ∧ handleEvent estState { data := "/messages?sessionId=def456", parsed := none }
        = .ok ([Output.sessionEstablished (sessionIdOf "/messages?sessionId=def456"),
                Output.canSendNow],
               { estState with sessionId := some (sessionIdOf "/messages?sessionId=def456") }) :=
  ⟨by decide,
   c6_bootstrap_overwrites estState { data := "/messages?sessionId=def456", parsed := none }
     (by decide)⟩

/-! ## C3: commands are rejected locally while no session exists -/

/-- C3: a `send_command` call made while no session id is established
returns no request id, prints only the local error, performs zero HTTP
POSTs, and leaves the whole state (in particular the request-id
counter) unchanged. -/
theorem c3_no_session_rejected (st : ClientState) (m : String) (p : Json)
    (netOk : Bool) (h : st.sessionId = none) :
    send_command st m p netOk
      = { output := [Output.errorNoSession], posts := [], state := st, ret := none } := by
  simp [send_command, h, falsyStr]

/-- C3 witness: the theorem applied in the initial state, where no
session is established. -/
theorem c3_witness :
    initialState.sessionId = none
    ∧ send_command initialState "tools/list" (Json.obj []) true
        = { output := [Output.errorNoSession], posts := [], state := initialState,
            ret := none } :=
  ⟨rfl, c3_no_session_rejected initialState "tools/list" (Json.obj []) true rfl⟩

/-! ## C2: request ids are sequential while a session is established -/

theorem send_command_established (st : ClientState) (m : String) (p : Json)
    (netOk : Bool) (h : falsyStr st.sessionId = false) :
    send_command st m p netOk
      = { output := [if netOk then Output.commandSent m else Output.errorSending]
          posts := [{ sessionId := st.sessionId.getD ""
                      payload := { jsonrpc := "2.0", id := st.requestId,
                                   method := m, params := p } }]
          state := { st with requestId := st.requestId + 1 }
          ret := some st.requestId } := by
  simp [send_command, h]

theorem runSends_established :
    ∀ (calls : List (String × Json × Bool)) (st : ClientState),
      falsyStr st.sessionId = false →
      (runSends st calls).rets = (List.range' st.requestId calls.length).map some
      ∧ (runSends st calls).posts.map (fun q => q.payload.id)
          = List.range' st.requestId calls.length
      ∧ (runSends st calls).state = { st with requestId := st.requestId + calls.length }
  | [], st, h => by
    refine ⟨rfl, rfl, ?_⟩
    show st = { st with requestId := st.requestId + 0 }
    rfl
  | (m, p, netOk) :: rest, st, h => by
    have h' : falsyStr ({ st with requestId := st.requestId + 1 } : ClientState).sessionId
        = false := h
    obtain ⟨ihr, ihp, ihs⟩ :=
      runSends_established rest { st with requestId := st.requestId + 1 } h'
    simp only [runSends, send_command_established st m p netOk h]
    refine ⟨?_, ?_, ?_⟩
    · simp only [ihr, List.length_cons, List.range'_succ]
      rfl
    · simp only [List.map_append, ihp, List.length_cons, List.range'_succ]
      rfl
    · rw [ihs]
      show ({ st with requestId := st.requestId + 1 + rest.length } : ClientState)
        = { st with requestId := st.requestId + (rest.length + 1) }
      rw [Nat.add_assoc, Nat.add_comm 1 rest.length]

/-- C2: for any sequence of `send_command` calls made while a session id
is established (starting from the initial counter value 1), the request
ids placed in the outgoing POST payloads are exactly `1, 2, ...,
length`, the calls return exactly those ids, and the counter ends at
`length + 1`: it is incremented after every call whether or not the
POST succeeds. -/
theorem c2_request_ids_sequential (st : ClientState)
    (calls : List (String × Json × Bool))
    (hsess : falsyStr st.sessionId = false) (hinit : st.requestId = 1) :
    (runSends st calls).posts.map (fun q => q.payload.id)
        = List.range' 1 calls.length
    ∧ (runSends st calls).rets = (List.range' 1 calls.length).map some
    ∧ (runSends st calls).state.requestId = calls.length + 1 := by
  obtain ⟨ihr, ihp, ihs⟩ := runSends_established calls st hsess
  rw [hinit] at ihr ihp ihs
  refine ⟨ihp, ihr, ?_⟩
  rw [ihs]
  show 1 + calls.length = calls.length + 1
  rw [Nat.add_comm]

/-- C2 witness: the theorem applied to a concrete three-call sequence
whose middle call fails at the network layer; the ids are still
`[1, 2, 3]` with no gap and the counter ends at 4. -/
theorem c2_witness :
    falsyStr estState.sessionId = false
    ∧ estState.requestId = 1
    ∧ ((runSends estState exampleCalls).posts.map (fun q => q.payload.id)
          = List.range' 1 exampleCalls.length
        ∧ (runSends estState exampleCalls).rets
          = (List.range' 1 exampleCalls.length).map some
        ∧ (runSends estState exampleCalls).state.requestId = exampleCalls.length + 1) :=
  ⟨by decide, rfl, c2_request_ids_sequential estState exampleCalls (by decide) rfl⟩

/-! ## C7: connection loss stops the Shell loop too -/

/-- C7 counterexample: after a connection loss in a state with an
established session, the Shell loop's guard (`while not
STOP_EVENT.is_set():`) is false — the Shell does not keep accepting
commands — and a command sent in the still-in-progress iteration
performs an HTTP POST rather than a local session-related rejection,
because the session id is not cleared. -/
theorem c7_counterexample :
    shellLoopRuns (onConnectionError estState).2 = false
    ∧ (send_command (onConnectionError estState).2 "tools/list" (Json.obj []) false).posts.length
        = 1 :=
  ⟨rfl, rfl⟩

/-- C7 amended: an unrecoverable connection loss logs, sets the
process-wide stop flag, and ends the listener loop; because the Shell
loop's guard checks the same flag, the Shell loop also stops at its
next iteration check instead of continuing to accept commands. The
session id is left in place, so a command issued in the iteration
already in progress still performs an HTTP POST (failing at the network
layer), not a local session rejection. -/
theorem c7_connection_loss_stops_shell (st : ClientState) (m : String) (p : Json)
    (netOk : Bool) (h : falsyStr st.sessionId = false) :
    (onConnectionError st).1 = [Output.errorConnecting]
    ∧ (onConnectionError st).2.stopEvent = true
    ∧ shellLoopRuns (onConnectionError st).2 = false
    ∧ (onConnectionError st).2.sessionId = st.sessionId
    ∧ (send_command (onConnectionError st).2 m p netOk).posts.length = 1 := by
  refine ⟨rfl, rfl, rfl, rfl, ?_⟩
  rw [send_command_established ((onConnectionError st).2) m p netOk h]
  rfl

/-- C7 witness: the amended theorem applied after a connection loss in
the established-session example state. -/
theorem c7_witness :
    falsyStr estState.sessionId = false
    ∧ ((onConnectionError estState).1 = [Output.errorConnecting]
        ∧ (onConnectionError estState).2.stopEvent = true
        ∧ shellLoopRuns (onConnectionError estState).2 = false
        ∧ (onConnectionError estState).2.sessionId = estState.sessionId
        ∧ (send_command (onConnectionError estState).2 "tools/call" (Json.obj []) true).posts.length
            = 1) :=
  ⟨by decide, c7_connection_loss_stops_shell estState "tools/call" (Json.obj []) true (by decide)⟩

/-! ## Router branch lemmas -/

theorem names_branch_step (st : ClientState) (ev : Event) (data : Json)
    (tools names : List Json)
    (h1 : st.expectingToolNames = true)
    (h2 : ev.data ≠ "")
    (h3 : startsWithB ev.data "/messages?sessionId=" = false)
    (h4 : ev.parsed = some data)
    (h5 : resultTools? data = some (Json.arr tools))
    (h6 : mapNames tools = Except.ok names) :
    handleEvent st ev
      = .ok (namesOut names tools.length, { st with expectingToolNames := false }) := by
  simp [handleEvent, h1, h2, h3, h4, h5, h6, iterJson]

theorem info_branch_step (st : ClientState) (ev : Event) (data : Json)
    (tools : List Json) (found : Option Json)
    (h1 : st.expectingToolNames = false)
    (h2 : st.expectingToolInfo = true)
    (h3 : ev.data ≠ "")
    (h4 : startsWithB ev.data "/messages?sessionId=" = false)
    (h5 : ev.parsed = some data)
    (h6 : resultTools? data = some (Json.arr tools))
    (h7 : scanTools st.requestedToolName tools = Except.ok found) :
    handleEvent st ev
      = .ok (infoOut st.requestedToolName found,
             { st with expectingToolInfo := false, requestedToolName := none }) := by
  simp [handleEvent, h1, h2, h3, h4, h5, h6, h7, iterJson]

theorem scanTools_eq_find (x : String) :
    ∀ (tools : List Json) (found : Option Json),
      scanTools (some x) tools = Except.ok found →
      found = tools.find? (toolNamed x)
  | [], found, h => by
    simp only [scanTools, Except.ok.injEq] at h
    rw [← h]
    rfl
  | t :: rest, found, h => by
    cases hg : getField t "name" with
    | error e =>
      simp only [scanTools, hg] at h
      exact Except.noConfusion h
    | ok v =>
      simp only [scanTools, hg] at h
      have hnamed : toolNamed x t = matchesRequested v (some x) := by
        simp [toolNamed, hg, matchesRequested]
      cases hm : matchesRequested v (some x) with
      | true =>
        rw [if_pos hm] at h
        rw [List.find?_cons_of_pos _ (by rw [hnamed]; exact hm)]
        injection h with h'
        exact h'.symm
      | false =>
        rw [if_neg (by rw [hm]; exact Bool.false_ne_true)] at h
        rw [List.find?_cons_of_neg _ (by rw [hnamed, hm]; exact Bool.false_ne_true)]
        exact scanTools_eq_find x rest found h

theorem send_command_flags (st : ClientState) (m : String) (p : Json) (netOk : Bool) :
    (send_command st m p netOk).state.expectingToolNames = st.expectingToolNames
    ∧ (send_command st m p netOk).state.expectingToolInfo = st.expectingToolInfo
    ∧ (send_command st m p netOk).state.requestedToolName = st.requestedToolName
    ∧ (send_command st m p netOk).state.sessionId = st.sessionId := by
  unfold send_command
  split <;> exact ⟨rfl, rfl, rfl, rfl⟩

/-! ## C4: the names branch prints every name plus the count and resets -/

/-- C4: with pending intent `ExpectToolNames` (the names flag set, the
info slot empty), an inbound payload containing `result.tools` with an
array of tools makes the router print the `name` field of every tool,
one line each, then a total equal to the array length, and reset the
intent to `None`. -/
theorem c4_names_branch (st : ClientState) (ev : Event) (data : Json)
    (tools names : List Json)
    (h1 : st.expectingToolNames = true)
    (h7 : st.expectingToolInfo = false)
    (h8 : st.requestedToolName = none)
    (h2 : ev.data ≠ "")
    (h3 : startsWithB ev.data "/messages?sessionId=" = false)
    (h4 : ev.parsed = some data)
    (h5 : resultTools? data = some (Json.arr tools))
    (h6 : mapNames tools = Except.ok names) :
    handleEvent st ev
      = .ok (namesOut names tools.length, { st with expectingToolNames := false })
    ∧ ({ st with expectingToolNames := false } : ClientState).expectingToolNames = false
    ∧ ({ st with expectingToolNames := false } : ClientState).expectingToolInfo = false
    ∧ ({ st with expectingToolNames := false } : ClientState).requestedToolName = none :=
  ⟨names_branch_step st ev data tools names h1 h2 h3 h4 h5 h6, rfl, h7, h8⟩

/-- C4 witness: the theorem applied to the payload
`{"result":{"tools":[{"name":"a"},{"name":"b"}]}}`: both names are
printed and the total is exactly 2. -/
theorem c4_witness :
    namesOnState.expectingToolNames = true
    ∧ evAB.parsed = some payloadAB
    ∧ resultTools? payloadAB = some (Json.arr toolsAB)
    ∧ mapNames toolsAB = Except.ok [Json.str "a", Json.str "b"]
    ∧ toolsAB.length = 2
    ∧ (handleEvent namesOnState evAB
        = .ok (namesOut [Json.str "a", Json.str "b"] toolsAB.length,
               { namesOnState with expectingToolNames := false })
        ∧ ({ namesOnState with expectingToolNames := false } : ClientState).expectingToolNames
            = false
        ∧ ({ namesOnState with expectingToolNames := false } : ClientState).expectingToolInfo
            = false
        ∧ ({ namesOnState with expectingToolNames := false } : ClientState).requestedToolName
            = none) :=
  ⟨rfl, rfl, rfl, rfl, rfl,
   c4_names_branch namesOnState evAB payloadAB
     toolsAB [Json.str "a", Json.str "b"] rfl rfl rfl (by decide) (by decide) rfl rfl rfl⟩

/-! ## C5: the info branch scans by exact name, reports, and resets -/

/-- C5: with pending intent `ExpectToolInfo x`, an inbound payload
containing `result.tools` with an array of tools makes the router
linear-scan the array for the first entry whose `name` equals `x`
exactly (`found = tools.find? (toolNamed x)`): it prints that tool's
full descriptor when found and a not-found report otherwise, and in
both cases it resets the intent and the stored tool name to `None`
without throwing. -/
theorem c5_info_branch (st : ClientState) (ev : Event) (data : Json)
    (tools : List Json) (found : Option Json) (x : String)
    (h1 : st.expectingToolNames = false)
    (h2 : st.expectingToolInfo = true)
    (hx : st.requestedToolName = some x)
    (h3 : ev.data ≠ "")
    (h4 : startsWithB ev.data "/messages?sessionId=" = false)
    (h5 : ev.parsed = some data)
    (h6 : resultTools? data = some (Json.arr tools))
    (h7 : scanTools (some x) tools = Except.ok found) :
    handleEvent st ev
      = .ok (infoOut (some x) found,
             { st with expectingToolInfo := false, requestedToolName := none })
    ∧ found = tools.find? (toolNamed x)
    ∧ (found = none → infoOut (some x) found = [Output.toolNotFound (some x)])
    ∧ (∀ t, found = some t →
        infoOut (some x) found = [Output.toolInfoHeader (some x), Output.toolInfoBody t]) := by
  refine ⟨?_, scanTools_eq_find x tools found h7, ?_, ?_⟩
  · have h7' : scanTools st.requestedToolName tools = Except.ok found := by rw [hx]; exact h7
    have := info_branch_step st ev data tools found h1 h2 h3 h4 h5 h6 h7'
    rw [this, hx]
  · intro hnone
    rw [hnone]
    rfl
  · intro t hsome
    rw [hsome]
    rfl

/-- C5 witness: the theorem applied to
`{"result":{"tools":[{"name":"a"},{"name":"b"}]}}` with requested name
`"x"`, which is absent: the scan finds nothing, the router reports
not-found and resets the info intent. -/
theorem c5_witness :
    infoXState.expectingToolInfo = true
    ∧ infoXState.requestedToolName = some "x"
    ∧ scanTools (some "x") toolsAB = Except.ok none
    ∧ (handleEvent infoXState evAB
        = .ok (infoOut (some "x") none,
               { infoXState with expectingToolInfo := false, requestedToolName := none })
        ∧ (none : Option Json) = toolsAB.find? (toolNamed "x")
        ∧ ((none : Option Json) = none →
            infoOut (some "x") none = [Output.toolNotFound (some "x")])
        ∧ (∀ t, (none : Option Json) = some t →
            infoOut (some "x") none
              = [Output.toolInfoHeader (some "x"), Output.toolInfoBody t])) :=
  ⟨rfl, rfl, rfl,
   c5_info_branch infoXState evAB payloadAB toolsAB none "x"
     rfl rfl rfl (by decide) (by decide) rfl rfl rfl⟩

/-! ## C8: malformed event data is printed raw and the loop continues -/

/-- C8: an inbound event whose data is not valid JSON (and is neither
empty nor bootstrap-shaped) makes the receive loop print the data
verbatim as raw text and leave the whole state — pending intent and
session id included — unchanged; the loop then continues, so any
suffix of events is processed from the same state, with the raw print
prepended. -/
theorem c8_malformed_event (st : ClientState) (ev : Event)
    (h1 : ev.data ≠ "")
    (h2 : startsWithB ev.data "/messages?sessionId=" = false)
    (h3 : ev.parsed = none) :
    handleEvent st ev = .ok ([Output.rawEvent ev.data], st)
    ∧ (st.stopEvent = false →
        ∀ (rest : List Event) (outs : List Output) (st' : ClientState),
          processEvents st rest = .ok (outs, st') →
          processEvents st (ev :: rest) = .ok (Output.rawEvent ev.data :: outs, st')) := by
  have hH : handleEvent st ev = .ok ([Output.rawEvent ev.data], st) := by
    simp [handleEvent, h1, h2, h3]
  refine ⟨hH, ?_⟩
  intro hstop rest outs st' hrest
  simp [processEvents, hstop, hH, hrest]

/-- C8 witness: a raw event followed by a well-formed event: the raw
data is printed verbatim, the state is untouched, and the next event is
still processed normally (here: pretty-printed, since no intent is
pending). -/
theorem c8_witness :
    evRaw.data ≠ ""
    ∧ startsWithB evRaw.data "/messages?sessionId=" = false
    ∧ evRaw.parsed = none
    ∧ estState.stopEvent = false
    ∧ processEvents estState [evAB] = .ok ([Output.eventReceived payloadAB], estState)
    ∧ (handleEvent estState evRaw = .ok ([Output.rawEvent evRaw.data], estState)
        ∧ processEvents estState [evRaw, evAB]
            = .ok (Output.rawEvent evRaw.data :: [Output.eventReceived payloadAB], estState)) :=
  ⟨by decide, by decide, rfl, rfl, rfl,
   (c8_malformed_event estState evRaw (by decide) (by decide) rfl).1,
   (c8_malformed_event estState evRaw (by decide) (by decide) rfl).2 rfl
     [evAB] [Output.eventReceived payloadAB] estState rfl⟩

/-! ## C9: when both intents are set, the names branch takes priority -/

/-- C9: if both `EXPECTING_TOOL_NAMES` and `EXPECTING_TOOL_INFO` are set
when a `result.tools` payload arrives, only the names branch executes:
the names and the count are printed and the names flag is cleared while
the info flag and the stored tool name survive, so the next
`result.tools` payload is consumed by the tool-info branch; moreover a
`show_tool_info` call leaves an outstanding names intent untouched. -/
theorem c9_names_priority (st : ClientState) (ev1 ev2 : Event)
    (data1 data2 : Json) (tools1 tools2 names1 : List Json)
    (found : Option Json) (x : String)
    (hA : st.expectingToolNames = true)
    (hB : st.expectingToolInfo = true)
    (hC : st.requestedToolName = some x)
    (hS : st.stopEvent = false)
    (e1 : ev1.data ≠ "")
    (e2 : startsWithB ev1.data "/messages?sessionId=" = false)
    (e3 : ev1.parsed = some data1)
    (e4 : resultTools? data1 = some (Json.arr tools1))
    (e5 : mapNames tools1 = Except.ok names1)
    (f1 : ev2.data ≠ "")
    (f2 : startsWithB ev2.data "/messages?sessionId=" = false)
    (f3 : ev2.parsed = some data2)
    (f4 : resultTools? data2 = some (Json.arr tools2))
    (f5 : scanTools (some x) tools2 = Except.ok found) :
    handleEvent st ev1
      = .ok (namesOut names1 tools1.length, { st with expectingToolNames := false })
    ∧ ({ st with expectingToolNames := false } : ClientState).expectingToolInfo = true
    ∧ ({ st with expectingToolNames := false } : ClientState).requestedToolName = some x
    ∧ processEvents st [ev1, ev2]
        = .ok (namesOut names1 tools1.length ++ infoOut (some x) found,
               { st with
                   expectingToolNames := false
                   expectingToolInfo := false
                   requestedToolName := none })
    ∧ (∀ (y : String) (netOk : Bool),
        (show_tool_info st y netOk).state.expectingToolNames = st.expectingToolNames) := by
  have h1 := names_branch_step st ev1 data1 tools1 names1 hA e1 e2 e3 e4 e5
  have h7' : scanTools ({ st with expectingToolNames := false } : ClientState).requestedToolName
      tools2 = Except.ok found := by
    show scanTools st.requestedToolName tools2 = Except.ok found
    rw [hC]
    exact f5
  have h2 := info_branch_step { st with expectingToolNames := false } ev2 data2 tools2 found
    rfl (show st.expectingToolInfo = true from hB) f1 f2 f3 f4 h7'
  have h2' : handleEvent { st with expectingToolNames := false } ev2
      = .ok (infoOut (some x) found,
             { st with
                 expectingToolNames := false
                 expectingToolInfo := false
                 requestedToolName := none }) := by
    rw [h2, show ({ st with expectingToolNames := false } : ClientState).requestedToolName
          = st.requestedToolName from rfl, hC]
  refine ⟨h1, show st.expectingToolInfo = true from hB,
    show st.requestedToolName = some x from hC, ?_, ?_⟩
  · rw [hS] at h1 h2'
    simp [processEvents, hS, h1, h2']
  · intro y netOk
    exact (send_command_flags
      { st with expectingToolInfo := true, requestedToolName := some y }
      "tools/list" (Json.obj []) netOk).1

/-- C9 witness: the theorem applied with both flags set and requested
name `"b"`: the first `result.tools` payload is consumed by the names
branch, the second by the info branch, which finds `{"name":"b"}`. -/
theorem c9_witness :
    bothState.expectingToolNames = true
    ∧ bothState.expectingToolInfo = true
    ∧ bothState.requestedToolName = some "b"
    ∧ scanTools (some "b") toolsAB = Except.ok (some toolB)
    ∧ (handleEvent bothState evAB
        = .ok (namesOut [Json.str "a", Json.str "b"] toolsAB.length,
               { bothState with expectingToolNames := false })
      ∧ ({ bothState with expectingToolNames := false } : ClientState).expectingToolInfo = true
      ∧ ({ bothState with expectingToolNames := false } : ClientState).requestedToolName
          = some "b"
      ∧ processEvents bothState [evAB, evAB]
          = .ok (namesOut [Json.str "a", Json.str "b"] toolsAB.length
                   ++ infoOut (some "b") (some toolB),
                 { bothState with
                     expectingToolNames := false
                     expectingToolInfo := false
                     requestedToolName := none })
      ∧ (∀ (y : String) (netOk : Bool),
          (show_tool_info bothState y netOk).state.expectingToolNames
            = bothState.expectingToolNames)) :=
  ⟨rfl, rfl, rfl, rfl,
   c9_names_priority bothState evAB evAB payloadAB payloadAB toolsAB toolsAB
     [Json.str "a", Json.str "b"] (some toolB) "b" rfl rfl rfl rfl
     (by decide) (by decide) rfl rfl rfl (by decide) (by decide) rfl rfl rfl⟩

/-! ## C1: the two intent slots are independent, not one overwriting slot -/

theorem applyCall_flags (st : ClientState) (c : IntentCall) :
    (applyCall st c).expectingToolNames = (st.expectingToolNames || c.isListNames)
    ∧ (applyCall st c).expectingToolInfo = (st.expectingToolInfo || c.isShowInfo)
    ∧ (applyCall st c).requestedToolName
        = (match c with
           | IntentCall.listNames _ => st.requestedToolName
           | IntentCall.showInfo n _ => some n) := by
  cases c with
  | listNames netOk =>
    simp only [applyCall, list_tool_names, send_command, IntentCall.isListNames,
      IntentCall.isShowInfo]
    split <;> simp
  | showInfo n netOk =>
    simp only [applyCall, show_tool_info, send_command, IntentCall.isListNames,
      IntentCall.isShowInfo]
    split <;> simp

theorem intentSlots_invariant :
    ∀ (cs : List IntentCall) (st : ClientState),
      st.expectingToolInfo = st.requestedToolName.isSome →
      (applyCalls st cs).expectingToolNames
          = (st.expectingToolNames || cs.any IntentCall.isListNames)
      ∧ (applyCalls st cs).expectingToolInfo
          = (st.expectingToolInfo || cs.any IntentCall.isShowInfo)
      ∧ (applyCalls st cs).requestedToolName = lastRequested st.requestedToolName cs
      ∧ (applyCalls st cs).expectingToolInfo = (applyCalls st cs).requestedToolName.isSome
  | [], st, h => by
    refine ⟨?_, ?_, rfl, h⟩ <;> simp [applyCalls]
  | c :: cs, st, h => by
    obtain ⟨g1, g2, g3⟩ := applyCall_flags st c
    have h' : (applyCall st c).expectingToolInfo
        = (applyCall st c).requestedToolName.isSome := by
      rw [g2, g3]
      cases c with
      | listNames netOk => simpa [IntentCall.isShowInfo] using h
      | showInfo n netOk => simp [IntentCall.isShowInfo]
    obtain ⟨i1, i2, i3, i4⟩ := intentSlots_invariant cs (applyCall st c) h'
    have hfold : applyCalls st (c :: cs) = applyCalls (applyCall st c) cs := rfl
    refine ⟨?_, ?_, ?_, by rw [hfold]; exact i4⟩
    · rw [hfold, i1, g1]
      simp [List.any_cons, Bool.or_assoc]
    · rw [hfold, i2, g2]
      simp [List.any_cons, Bool.or_assoc]
    · rw [hfold, i3, g3]
      cases c <;> rfl

/-- C1 counterexample: after `list_tool_names` and then
`show_tool_info "x"` (from an established session with no pending
intent), both `EXPECTING_TOOL_NAMES` and `EXPECTING_TOOL_INFO` are set
at once — the router state holds none of
`{None, ExpectToolNames, ExpectToolInfo(name)}` — and the next
`result.tools` payload is interpreted by the names branch even though
the info intent was the most recently set one. -/
theorem c1_counterexample :
    (applyCalls estState [IntentCall.listNames true, IntentCall.showInfo "x" true]).expectingToolNames
        = true
    ∧ (applyCalls estState [IntentCall.listNames true, IntentCall.showInfo "x" true]).expectingToolInfo
        = true
    ∧ (applyCalls estState [IntentCall.listNames true, IntentCall.showInfo "x" true]).requestedToolName
        = some "x"
    ∧ handleEvent (applyCalls estState [IntentCall.listNames true, IntentCall.showInfo "x" true]) evAB
        = .ok (namesOut [Json.str "a", Json.str "b"] toolsAB.length,
               { estState with
                   requestId := 3
                   expectingToolInfo := true
                   requestedToolName := some "x" }) :=
  ⟨rfl, rfl, rfl, rfl⟩

/-- C1 amended: the names slot and the info slot are independent rather
than a single pending-intent slot: a `list_tool_names` call sets only
`EXPECTING_TOOL_NAMES` and a `show_tool_info` call sets only
`EXPECTING_TOOL_INFO`/`REQUESTED_TOOL_NAME` (last writer wins within
each slot, and the stored name is set exactly when the info flag is);
neither call clears the other slot, so both intents can be outstanding
at once, and whenever the names flag is set it is the names branch that
interprets the next payload containing `result.tools`, regardless of
which intent was set most recently. -/
theorem c1_intent_slots_independent (st : ClientState) (cs : List IntentCall)
    (h : st.expectingToolInfo = st.requestedToolName.isSome)
    (s : ClientState) (ev : Event) (data : Json) (tools names : List Json)
    (p1 : s.expectingToolNames = true)
    (p2 : ev.data ≠ "")
    (p3 : startsWithB ev.data "/messages?sessionId=" = false)
    (p4 : ev.parsed = some data)
    (p5 : resultTools? data = some (Json.arr tools))
    (p6 : mapNames tools = Except.ok names) :
    (applyCalls st cs).expectingToolNames
        = (st.expectingToolNames || cs.any IntentCall.isListNames)
    ∧ (applyCalls st cs).expectingToolInfo
        = (st.expectingToolInfo || cs.any IntentCall.isShowInfo)
    ∧ (applyCalls st cs).requestedToolName = lastRequested st.requestedToolName cs
    ∧ (applyCalls st cs).expectingToolInfo = (applyCalls st cs).requestedToolName.isSome
    ∧ handleEvent s ev
        = .ok (namesOut names tools.length, { s with expectingToolNames := false }) := by
  obtain ⟨i1, i2, i3, i4⟩ := intentSlots_invariant cs st h
  exact ⟨i1, i2, i3, i4, names_branch_step s ev data tools names p1 p2 p3 p4 p5 p6⟩

/-- C1 amendment witness: the amended theorem applied to the overlap
sequence `list_tool_names; show_tool_info "x"` and to the
both-flags-set state receiving a `result.tools` payload. -/
theorem c1_witness :
    estState.expectingToolInfo = estState.requestedToolName.isSome
    ∧ bothState.expectingToolNames = true
    ∧ ((applyCalls estState [IntentCall.listNames true, IntentCall.showInfo "x" true]).expectingToolNames
          = (estState.expectingToolNames
              || [IntentCall.listNames true, IntentCall.showInfo "x" true].any IntentCall.isListNames)
        ∧ (applyCalls estState [IntentCall.listNames true, IntentCall.showInfo "x" true]).expectingToolInfo
          = (estState.expectingToolInfo
              || [IntentCall.listNames true, IntentCall.showInfo "x" true].any IntentCall.isShowInfo)
        ∧ (applyCalls estState [IntentCall.listNames true, IntentCall.showInfo "x" true]).requestedToolName
          = lastRequested estState.requestedToolName
              [IntentCall.listNames true, IntentCall.showInfo "x" true]
        ∧ (applyCalls estState [IntentCall.listNames true, IntentCall.showInfo "x" true]).expectingToolInfo
          = (applyCalls estState [IntentCall.listNames true, IntentCall.showInfo "x" true]).requestedToolName.isSome
        ∧ handleEvent bothState evAB
          = .ok (namesOut [Json.str "a", Json.str "b"] toolsAB.length,
                 { bothState with expectingToolNames := false })) :=
  ⟨rfl, rfl,
   c1_intent_slots_independent estState [IntentCall.listNames true, IntentCall.showInfo "x" true]
     rfl bothState evAB payloadAB toolsAB [Json.str "a", Json.str "b"]
     rfl (by decide) (by decide) rfl rfl rfl⟩
